import Mathlib

/-!
Shallow embedding of the Búri SPI slave core:

* `src/devices/bus/spi/slave.cpp` / `slave.h` — the generic SPI slave
  line-level exchange engine (`spi_slave_device`);
* `src/devices/bus/spi/burikbd.cpp` — the keyboard protocol layered on it
  (`spi_kbd_device`);
* `src/mame/drivers/buri.cpp` — the board-level interrupt aggregation
  (`buri_state::m_irqs` and its `*_irq_w` handlers).

Bytes are modelled as `Nat` with explicit `% 256` where the C++ `uint8_t`
arithmetic wraps; line levels are `Nat` (the C++ `int` levels written by the
board, coerced with `!= 0` exactly where the source coerces).  The virtual
`spi_slave_select` / `spi_slave_deselect` / `spi_slave_mosi_byte` dispatch is
modelled by an explicit record of handler functions (`SpiImpl`), instantiated
once for the base device (empty bodies, `slave.cpp` lines 120-122) and once
for the keyboard device.

For observability the engine state carries two traces that the C++ state does
not store: `misoTrace` records every level passed to `set_miso` (the levels
driven onto the MISO line), and `exchangeTrace` records the payload of every
`spi_slave_mosi_byte` event.  Neither influences any control decision.
-/

namespace BuriSpi

/-- SPI mode, `enum spi_mode_t` of `slave.h`. -/
inductive SpiMode
  | mode0 | mode1 | mode2 | mode3
deriving DecidableEq

/-- Bit order, `enum spi_data_direction_t` of `slave.h`. -/
inductive SpiDataDir
  | msbFirst | lsbFirst
deriving DecidableEq

/-- `spi_slave_device::cpol()` (`slave.h`): 1 for modes 2 and 3, else 0. -/
def cpol : SpiMode → Nat
  | .mode2 => 1
  | .mode3 => 1
  | _ => 0

/-- `spi_slave_device::cpha()` (`slave.h`): 1 for modes 1 and 3, else 0. -/
def cpha : SpiMode → Nat
  | .mode1 => 1
  | .mode3 => 1
  | _ => 0

/-- The mutable state of `spi_slave_device` (`slave.h` lines 86-92), plus the
protocol payload `proto` of the concrete subclass and the two observation
traces (`misoTrace`, `exchangeTrace`) described in the file header. -/
structure SpiState (π : Type) where
  mode : SpiMode
  dataDir : SpiDataDir
  selected : Bool
  clk : Nat
  mosi : Bool
  miso : Nat
  recvByte : Nat
  sendByte : Nat
  recvCount : Nat
  sendCount : Nat
  misoTrace : List Nat
  exchangeTrace : List Nat
  proto : π

/-- The virtual callbacks of `spi_slave_device_interface` (`slave.h`
lines 33-44), as explicit state transformers. -/
structure SpiImpl (π : Type) where
  onSelect : SpiState π → SpiState π
  onDeselect : SpiState π → SpiState π
  onMosiByte : Nat → SpiState π → SpiState π

variable {π : Type}

/-- `spi_slave_device::set_miso` (`slave.h` lines 98-100): stores the level
and notifies the MISO callback; the notification is recorded in
`misoTrace`. -/
def setMiso (v : Nat) (s : SpiState π) : SpiState π :=
  { s with miso := v, misoTrace := s.misoTrace ++ [v] }

/-- `spi_slave_device::set_miso_byte` (`slave.cpp` lines 108-118): arm the
send byte (a `uint8_t` parameter, hence `% 256`) and drive its first bit
per the data direction. -/
def setMisoByte (b : Nat) (s : SpiState π) : SpiState π :=
  let b := b % 256
  let s1 : SpiState π := { s with sendByte := b }
  match s1.dataDir with
  | .msbFirst => setMiso (if b &&& 0x80 ≠ 0 then 1 else 0) s1
  | .lsbFirst => setMiso (b &&& 0x1) s1

/-- `spi_slave_device::device_reset` (`slave.cpp` lines 25-29). -/
def baseDeviceReset (s : SpiState π) : SpiState π :=
  { s with recvCount := 0, sendCount := 0, recvByte := 0, sendByte := 0 }

/-- `spi_slave_device::write_mosi` (`slave.cpp` lines 31-34): stores the
coerced level unconditionally. -/
def writeMosi (v : Nat) (s : SpiState π) : SpiState π :=
  { s with mosi := v != 0 }

/-- `spi_slave_device::write_select` (`slave.cpp` lines 36-48).  The C++
compares the `int` level against the `bool` `m_selected` promoted to 0/1. -/
def writeSelect (impl : SpiImpl π) (v : Nat) (s : SpiState π) : SpiState π :=
  let s1 :=
    if v ≠ (if s.selected then 1 else 0) then
      if v ≠ 0 then
        impl.onSelect { s with recvCount := 0, sendCount := 0 }
      else
        impl.onDeselect s
    else s
  { s1 with selected := v != 0 }

/-- The edge classification of `clk_edge_` (`slave.cpp` line 77):
`data_stable = cpha() ? !is_idle_to_active : is_idle_to_active`. -/
def edgeIsDataStable (m : SpiMode) (isIdleToActive : Nat) : Bool :=
  if cpha m = 1 then isIdleToActive == 0 else isIdleToActive != 0

/-- `spi_slave_device::clk_edge_` (`slave.cpp` lines 75-106): classify the
edge via CPHA, sample MOSI or drive MISO, and on completion of both 8-bit
counts reset the send byte to 0 and deliver the received byte to the
`spi_slave_mosi_byte` callback. -/
def clkEdge (impl : SpiImpl π) (isIdleToActive : Nat) (s : SpiState π) : SpiState π :=
  let dataStable : Bool := edgeIsDataStable s.mode isIdleToActive
  let s1 : SpiState π :=
    if dataStable then
      let rb :=
        match s.dataDir with
        | .msbFirst => (s.recvByte <<< 1) % 256 ||| (if s.mosi then 0x01 else 0x00)
        | .lsbFirst => (s.recvByte >>> 1) ||| (if s.mosi then 0x80 else 0x00)
      { s with recvByte := rb, recvCount := s.recvCount + 1 }
    else
      match s.dataDir with
      | .msbFirst =>
          let s2 := setMiso (if s.sendByte &&& 0x80 ≠ 0 then 1 else 0) s
          { s2 with sendByte := (s2.sendByte <<< 1) % 256, sendCount := s2.sendCount + 1 }
      | .lsbFirst =>
          let s2 := setMiso (s.sendByte &&& 0x1) s
          { s2 with sendByte := s2.sendByte >>> 1, sendCount := s2.sendCount + 1 }
  if s1.recvCount = 8 ∧ s1.sendCount = 8 then
    let s2 := setMisoByte 0x00 s1
    let s3 := { s2 with exchangeTrace := s2.exchangeTrace ++ [s2.recvByte] }
    impl.onMosiByte s3.recvByte s3
  else s1

/-- `spi_slave_device::write_clock` (`slave.cpp` lines 50-68): ignore a
no-change level, record the level, bail out when deselected, otherwise
dispatch the edge classified against CPOL. -/
def writeClock (impl : SpiImpl π) (v : Nat) (s : SpiState π) : SpiState π :=
  if s.clk = v then s
  else
    let s1 : SpiState π := { s with clk := v }
    if !s1.selected then s1
    else if v ≠ 0 then
      clkEdge impl (if cpol s1.mode = 1 then 0 else 1) s1
    else
      clkEdge impl (if cpol s1.mode = 1 then 1 else 0) s1

/-- The base `spi_slave_device` callbacks (`slave.cpp` lines 120-122): all
empty. -/
def baseImpl : SpiImpl Unit :=
  { onSelect := id, onDeselect := id, onMosiByte := fun _ s => s }

/-- Constructor state of `spi_slave_device` (`slave.cpp` lines 7-17) with the
given protocol payload. -/
def initState (m : SpiMode) (d : SpiDataDir) (p : π) : SpiState π :=
  { mode := m, dataDir := d, selected := false, clk := 0, mosi := false,
    miso := 0, recvByte := 0, sendByte := 0, recvCount := 0, sendCount := 0,
    misoTrace := [], exchangeTrace := [], proto := p }

/-- Freshly constructed base device (mode 0, MSB first by default). -/
def baseInit : SpiState Unit := initState .mode0 .msbFirst ()

/-- One line write issued by the master (the board's `via_pa_w` decodes the
parallel port into exactly these three calls, `buri.cpp`). -/
inductive LineWrite
  | sel (v : Nat)
  | clkW (v : Nat)
  | mosiW (v : Nat)

/-- Apply one line write. -/
def applyWrite (impl : SpiImpl π) (w : LineWrite) (s : SpiState π) : SpiState π :=
  match w with
  | .sel v => writeSelect impl v s
  | .clkW v => writeClock impl v s
  | .mosiW v => writeMosi v s

/-- Apply a sequence of line writes in order. -/
def runWrites (impl : SpiImpl π) (ws : List LineWrite) (s : SpiState π) : SpiState π :=
  ws.foldl (fun st w => applyWrite impl w st) s

/-- The MSB-first bit sequence of a byte, as 0/1 levels. -/
def bitsMSB (b : Nat) : List Nat :=
  (List.range 8).map (fun i => (b >>> (7 - i)) &&& 1)

/-- Line writes of one full mode-0 clock cycle in which the master first
drives MOSI to `bit`, then raises and lowers the clock. -/
def masterCycle (bit : Nat) : List LineWrite :=
  [.mosiW bit, .clkW 1, .clkW 0]

/-- Protocol states of `spi_kbd_device` (`burikbd.cpp`, the `SPI_KBD_*`
enumeration used by `m_state`). -/
inductive KbdProtoState
  | notSelected | newlySelected | readyToRead | readyToRespond | done
deriving DecidableEq

/-- The keyboard-specific fields of `spi_kbd_device`: `m_state`,
`m_last_scancode`, `m_scancode_reg_full`, and the level last written to the
`m_write_irq` callback. -/
structure KbdProto where
  kstate : KbdProtoState
  lastScancode : Nat
  scancodeRegFull : Bool
  irq : Nat
deriving DecidableEq

/-- State of a `spi_kbd_device`: the engine state with the keyboard payload. -/
abbrev KbdSpi := SpiState KbdProto

/-- Write the IRQ line level via `m_write_irq`. -/
def writeIrq (v : Nat) (s : KbdSpi) : KbdSpi :=
  { s with proto := { s.proto with irq := v } }

/-- `spi_kbd_device::device_reset` (`burikbd.cpp` lines 41-48): base device
reset, then clear the protocol state, buffer and IRQ. -/
def kbdDeviceReset (s : KbdSpi) : KbdSpi :=
  let s1 := baseDeviceReset s
  writeIrq 0 { s1 with proto := { s1.proto with
    kstate := .notSelected, scancodeRegFull := false, lastScancode := 0 } }

/-- `spi_kbd_device::control` (`burikbd.cpp` lines 93-104): response byte for
a control code, together with the possibly mutated device state (control
code 0 invokes `device_reset`). -/
def control (ctrlByte : Nat) (s : KbdSpi) : Nat × KbdSpi :=
  if ctrlByte = 0x00 then
    (0x00, kbdDeviceReset s)
  else if ctrlByte = 0x01 then
    (if s.proto.scancodeRegFull then 0x00 else 0xFF, s)
  else
    (0x00, s)

/-- `spi_kbd_device::spi_slave_mosi_byte` (`burikbd.cpp` lines 60-89). -/
def kbdOnMosiByte (recvByte : Nat) (s : KbdSpi) : KbdSpi :=
  match s.proto.kstate with
  | .newlySelected =>
      if recvByte &&& 0x80 ≠ 0 then
        let s1 : KbdSpi := { s with proto := { s.proto with kstate := .readyToRespond } }
        let r := control (recvByte &&& 0x7F) s1
        setMisoByte r.1 r.2
      else
        let s1 : KbdSpi := { s with proto := { s.proto with kstate := .readyToRead } }
        let s2 := setMisoByte s1.proto.lastScancode s1
        writeIrq 0 { s2 with proto := { s2.proto with
          lastScancode := 0x00, scancodeRegFull := false } }
  | .readyToRead =>
      setMisoByte 0x00 { s with proto := { s.proto with kstate := .done } }
  | .readyToRespond =>
      setMisoByte 0x00 { s with proto := { s.proto with kstate := .done } }
  | _ => setMisoByte 0x00 s

/-- The virtual callbacks of `spi_kbd_device` (`burikbd.cpp` lines 50-58
and 60-89). -/
def kbdImpl : SpiImpl KbdProto :=
  { onSelect := fun s => { s with proto := { s.proto with kstate := .newlySelected } },
    onDeselect := fun s => { s with proto := { s.proto with kstate := .notSelected } },
    onMosiByte := kbdOnMosiByte }

/-- `spi_kbd_device::keyboard_w` (`burikbd.cpp` lines 22-33): a no-op while
the data-ready line is 0, otherwise latch the scancode read from the external
AT keyboard device (passed here as the `scancode` argument, a `uint8_t`),
mark the buffer full and assert the IRQ. -/
def keyboardW (line : Nat) (scancode : Nat) (s : KbdSpi) : KbdSpi :=
  if line = 0 then s
  else
    writeIrq 1 { s with proto := { s.proto with
      lastScancode := scancode % 256, scancodeRegFull := true } }

/-- The byte-exchange completion path of `clk_edge_` (`slave.cpp`
lines 101-105) specialised to the keyboard device: the engine resets the send
byte to 0, records the byte-exchanged event, and delivers the received byte
to `spi_slave_mosi_byte`.  Used to state protocol-level transaction claims at
the byte-exchange interface of `burikbd.cpp`. -/
def kbdExchange (recvByte : Nat) (s : KbdSpi) : KbdSpi :=
  let s1 := setMisoByte 0x00 s
  let s2 := { s1 with exchangeTrace := s1.exchangeTrace ++ [recvByte] }
  kbdOnMosiByte recvByte s2

/-- Freshly constructed `spi_kbd_device` (`burikbd.cpp` lines 5-11): base
defaults mode 0 / MSB first, protocol state `SPI_KBD_NOT_SELECTED`, empty
buffer. -/
def kbdInit : KbdSpi :=
  initState .mode0 .msbFirst
    { kstate := .notSelected, lastScancode := 0, scancodeRegFull := false, irq := 0 }

/-- Board-level interrupt state of `buri_state` (`buri.cpp`): the three
1-bit flags of the `m_irqs` union and the CPU IRQ input line last driven by
`irqs_updated_`. -/
structure BuriIrqState where
  mos6551 : Bool
  tms9929a : Bool
  via6522 : Bool
  cpuIrq : Bool
deriving DecidableEq

/-- The packed `m_irqs.val` view of the union: flag `mos6551` is bit 0,
`tms9929a` bit 1, `via6522` bit 2. -/
def irqsVal (s : BuriIrqState) : Nat :=
  (if s.mos6551 then 1 else 0) + (if s.tms9929a then 2 else 0) +
    (if s.via6522 then 4 else 0)

/-- `buri_state::irqs_updated_` (`buri.cpp`): drive the CPU IRQ input with
`ASSERT_LINE` iff `m_irqs.val` is non-zero. -/
def irqsUpdated (s : BuriIrqState) : BuriIrqState :=
  { s with cpuIrq := irqsVal s != 0 }

/-- `buri_state::mos6551_irq_w` (`buri.cpp`). -/
def mos6551IrqW (v : Nat) (s : BuriIrqState) : BuriIrqState :=
  irqsUpdated { s with mos6551 := v != 0 }

/-- `buri_state::tms9929a_irq_w` (`buri.cpp`). -/
def tms9929aIrqW (v : Nat) (s : BuriIrqState) : BuriIrqState :=
  irqsUpdated { s with tms9929a := v != 0 }

/-- `buri_state::via6522_irq_w` (`buri.cpp`). -/
def via6522IrqW (v : Nat) (s : BuriIrqState) : BuriIrqState :=
  irqsUpdated { s with via6522 := v != 0 }

/-- One per-source interrupt flag update, tagged by source. -/
inductive IrqWrite
  | mos (v : Nat)
  | tms (v : Nat)
  | via (v : Nat)
deriving DecidableEq

/-- Apply one per-source update through its `*_irq_w` handler. -/
def applyIrqWrite (w : IrqWrite) (s : BuriIrqState) : BuriIrqState :=
  match w with
  | .mos v => mos6551IrqW v s
  | .tms v => tms9929aIrqW v s
  | .via v => via6522IrqW v s

/-- Apply a sequence of per-source updates in order. -/
def runIrqWrites (ws : List IrqWrite) (s : BuriIrqState) : BuriIrqState :=
  ws.foldl (fun st w => applyIrqWrite w st) s

/-- Constructor state of `buri_state` (`buri.cpp`): `m_irqs.val = 0`, CPU IRQ
line clear. -/
def buriIrqInit : BuriIrqState :=
  { mos6551 := false, tms9929a := false, via6522 := false, cpuIrq := false }

/-! ### Concrete runs used by the claim theorems -/

/-- Base device after `write_select(1)` followed by 32 alternating
`write_clock(1)` / `write_clock(0)` calls in mode 0 (16 full clock cycles
during one continuous selection). -/
def c1Run : SpiState Unit :=
  runWrites baseImpl
    (.sel 1 :: (List.replicate 16 [LineWrite.clkW 1, .clkW 0]).flatten) baseInit

/-- Base device: newly selected, `0x3C` armed via `set_miso_byte`, then 8
full mode-0 clock cycles during which the master drives MOSI with the bits of
`0xA5` MSB-first before each rising edge. -/
def c6Run : SpiState Unit :=
  runWrites baseImpl ((bitsMSB 0xA5).map masterCycle).flatten
    (setMisoByte 0x3C (writeSelect baseImpl 1 baseInit))

/-- Keyboard device after the external feed pushed scancode `0x1C` and the
master selected it. -/
def c2Selected : KbdSpi := writeSelect kbdImpl 1 (keyboardW 1 0x1C kbdInit)

/-- State after the first byte (`0x00`) of the 2-byte read transaction. -/
def c2AfterFirst : KbdSpi := kbdExchange 0x00 c2Selected

/-- State after the second byte (`0x00`) of the 2-byte read transaction. -/
def c2AfterSecond : KbdSpi := kbdExchange 0x00 c2AfterFirst

/-- State after deselecting, reselecting and exchanging the control-`0x01`
peek byte `0x81` as the first byte of a fresh transaction. -/
def c2Peek : KbdSpi :=
  kbdExchange 0x81 (writeSelect kbdImpl 1 (writeSelect kbdImpl 0 c2AfterSecond))

/-- Keyboard device with a scancode pending (`0x1C` pushed, buffer full, IRQ
asserted) and newly selected. -/
def c3FullState : KbdSpi := writeSelect kbdImpl 1 (keyboardW 1 0x1C kbdInit)

/-- A protocol implementation whose byte-exchanged callback arms `b` via
`set_miso_byte`, modelling a peripheral that answers every exchanged byte
with `b` (as `spi_kbd_device` does with its computed responses). -/
def armOnExchange (b : Nat) : SpiImpl Unit :=
  { onSelect := id, onDeselect := id, onMosiByte := fun _ s => setMisoByte b s }

/-- Base device in mode 0, selected, one sample edge away from completing a
byte exchange (7 bits received, 8 bits sent). -/
def c5State : SpiState Unit :=
  { mode := .mode0, dataDir := .msbFirst, selected := true, clk := 0, mosi := true,
    miso := 0, recvByte := 0x52, sendByte := 0, recvCount := 7, sendCount := 8,
    misoTrace := [], exchangeTrace := [], proto := () }

/-- Keyboard device with scancode `0x2A` pending (buffer full, IRQ asserted)
and newly selected. -/
def c7Pending : KbdSpi := writeSelect kbdImpl 1 (keyboardW 1 0x2A kbdInit)

/-- Keyboard device newly selected with an empty buffer. -/
def c10Newly : KbdSpi := writeSelect kbdImpl 1 kbdInit

/-- The C8 witness scenario: assert two interrupt sources, then deassert one
of them. -/
def c8Writes : List IrqWrite := [.mos 1, .tms 1, .mos 0]

/-! ### Claim theorems -/

/-- Claim C1 (code_bug evaluation): the bit counters are **not** reset after a
completed 8-bit exchange.  With the base device newly selected and the master
producing 32 qualifying clock edges in mode 0, the counters grow to 16 and
only one byte-exchanged event ever fires, contradicting the claim that every
group of 16 qualifying edges during one continuous selection completes
another byte exchange. -/
theorem claim1_counts_not_reset_after_exchange :
    c1Run.recvCount = 16 ∧ c1Run.sendCount = 16 ∧ c1Run.exchangeTrace.length = 1 := by
  decide

/-- Claim C4 (code_bug evaluation): `write_mosi` is **not** discarded while
the device is deselected.  Starting from the freshly constructed (deselected)
base device with stored MOSI low, `write_mosi(1)` changes the stored level,
and that level is sampled by the first rising clock edge after a subsequent
selection, making the received bit 1.  This contradicts the claim (and the
`slave.h` header comment) that a MOSI write while deselected has no
effect. -/
theorem claim4_mosi_write_not_discarded_when_deselected :
    baseInit.selected = false ∧ baseInit.mosi = false ∧
    (writeMosi 1 baseInit).mosi = true ∧
    (writeClock baseImpl 1 (writeSelect baseImpl 1 (writeMosi 1 baseInit))).recvByte = 1 := by
  decide

/-- Claim C6: in SPI mode 0 with MSB-first order, arming `0x3C` on a newly
selected device and clocking 8 full cycles while the master drives the bits
of `0xA5` MSB-first before each rising edge yields received byte `0xA5`, and
the bits driven on MISO by the 8 shift edges are exactly `0x3C`'s bits
MSB-first (the full drive trace additionally shows the arming drive of
`0x3C`'s first bit before the cycles and the documented reset-to-zero drive
at byte completion). -/
theorem claim6_mode0_msb_transfer_scenario :
    c6Run.recvByte = 0xA5 ∧
    (c6Run.misoTrace.drop 1).take 8 = bitsMSB 0x3C ∧
    c6Run.misoTrace = [0] ++ bitsMSB 0x3C ++ [0] ∧
    c6Run.exchangeTrace = [0xA5] := by
  decide

/-- Claim C2 (counterexample): after pushing scancode `0x1C` and performing
the 2-byte read transaction (`0x00`, `0x00`), the buffer is indeed empty, but
a subsequent control-`0x01` peek answers `0xFF`, not the claimed empty
sentinel `0x00`. -/
theorem claim2_counterexample_peek_is_ff :
    c2AfterFirst.sendByte = 0x1C ∧
    c2AfterSecond.proto.scancodeRegFull = false ∧
    c2Peek.sendByte = 0xFF ∧ ¬ c2Peek.sendByte = 0x00 := by
  decide

/-- Claim C2 (amended): pushing scancode `0x1C` and performing the 2-byte
read transaction (`0x00`, `0x00`) returns `0x1C` on the first byte and leaves
the buffer empty (`scancode_buffer = 0`, `buffer_full = false`, IRQ
deasserted); a subsequent control-`0x01` peek then answers `0xFF`, the code's
response for an empty buffer. -/
theorem claim2_roundtrip_amended :
    c2AfterFirst.sendByte = 0x1C ∧
    c2AfterSecond.proto.lastScancode = 0x00 ∧
    c2AfterSecond.proto.scancodeRegFull = false ∧
    c2AfterSecond.proto.irq = 0 ∧
    c2Peek.sendByte = 0xFF := by
  decide

/-- Control code `0x01` does not mutate the device state
(`burikbd.cpp` line 100 only reads `m_scancode_reg_full`). -/
theorem claim3_counterexample_full_buffer_peek :
    c3FullState.proto.scancodeRegFull = true ∧
    c3FullState.proto.kstate = KbdProtoState.newlySelected ∧
    (kbdExchange 0x81 c3FullState).sendByte = 0x00 ∧
    ¬ (kbdExchange 0x81 c3FullState).sendByte = 0xFF := by
  decide

/-- Claim C3 (amended): for every protocol state with the device newly
selected, exchanging the byte `0x81` (high bit set, low 7 bits `0x01`) arms a
response byte of `0x00` if the scancode buffer is full and `0xFF` if it is
empty — the opposite of the claimed sentinels — and leaves the scancode
buffer and the buffer-full flag unchanged. -/
theorem claim3_peek_inverted_amended (s : KbdSpi)
    (h : s.proto.kstate = .newlySelected) :
    (kbdExchange 0x81 s).sendByte = (if s.proto.scancodeRegFull then 0x00 else 0xFF) ∧
    (kbdExchange 0x81 s).proto.lastScancode = s.proto.lastScancode ∧
    (kbdExchange 0x81 s).proto.scancodeRegFull = s.proto.scancodeRegFull := by
  obtain ⟨mo, dd, sel, clk, mos, mis, rb, sb, rc, sc, mt, et, pr⟩ := s
  obtain ⟨ks, lsc, full, irq⟩ := pr
  simp only at h
  subst h
  have h1 : (129 : ℕ) &&& 128 ≠ 0 := by decide
  have h2 : (129 : ℕ) &&& 127 = 1 := by decide
  cases dd <;> cases full <;>
    simp [kbdExchange, kbdOnMosiByte, setMisoByte, setMiso, control, kbdDeviceReset,
      baseDeviceReset, writeIrq, h1, h2]

/-- Concrete instantiation of `claim3_peek_inverted_amended` at a newly
selected device with a full buffer. -/
theorem claim3_peek_inverted_amended_witness :
    c3FullState.proto.kstate = KbdProtoState.newlySelected ∧
    ((kbdExchange 0x81 c3FullState).sendByte =
        (if c3FullState.proto.scancodeRegFull then 0x00 else 0xFF) ∧
      (kbdExchange 0x81 c3FullState).proto.lastScancode = c3FullState.proto.lastScancode ∧
      (kbdExchange 0x81 c3FullState).proto.scancodeRegFull = c3FullState.proto.scancodeRegFull) :=
  ⟨by decide, claim3_peek_inverted_amended c3FullState (by decide)⟩

/-- Claim C5: whenever a clock edge completes an 8-bit exchange (either a
sample edge with 7 bits received and 8 sent, or a drive edge with 8 received
and 7 sent), the engine emits the byte-exchanged event carrying the received
shift byte, and it resets the send byte to `0x00` — with the base (no-op)
callback the armed byte afterwards is 0 and MISO is driven low — strictly
before invoking the protocol callback, so a callback that calls
`set_miso_byte b` overrides the zero reset: its armed byte is `b` and its
MISO drive lands after the reset drive in the drive trace. -/
theorem claim5_reset_before_callback_override (b : Nat) (i : Nat) (s : SpiState Unit)
    (h : (edgeIsDataStable s.mode i = true ∧ s.recvCount = 7 ∧ s.sendCount = 8) ∨
         (edgeIsDataStable s.mode i = false ∧ s.recvCount = 8 ∧ s.sendCount = 7)) :
    (clkEdge (armOnExchange b) i s).exchangeTrace =
      s.exchangeTrace ++ [(clkEdge (armOnExchange b) i s).recvByte] ∧
    (clkEdge (armOnExchange b) i s).sendByte = b % 256 ∧
    (clkEdge baseImpl i s).exchangeTrace =
      s.exchangeTrace ++ [(clkEdge baseImpl i s).recvByte] ∧
    (clkEdge baseImpl i s).sendByte = 0 ∧
    (clkEdge baseImpl i s).miso = 0 ∧
    (clkEdge (armOnExchange b) i s).misoTrace =
      (clkEdge baseImpl i s).misoTrace ++
        [match s.dataDir with
         | .msbFirst => if b % 256 &&& 0x80 ≠ 0 then 1 else 0
         | .lsbFirst => b % 256 &&& 0x1] := by
  obtain ⟨mo, dd, sel, clk, mos, mis, rb, sb, rc, sc, mt, et, pr⟩ := s
  rcases h with ⟨hd, h7, h8⟩ | ⟨hd, h8, h7⟩ <;>
    simp only at hd h7 h8 <;>
    subst h7 <;> subst h8 <;>
    cases dd <;>
    simp [clkEdge, setMisoByte, setMiso, baseImpl, armOnExchange, hd]

/-- Concrete instantiation of `claim5_reset_before_callback_override` on a
mode-0 sample edge with `0x5A` armed by the callback. -/
theorem claim5_reset_before_callback_override_witness :
    ((edgeIsDataStable c5State.mode 1 = true ∧ c5State.recvCount = 7 ∧
        c5State.sendCount = 8) ∨
      (edgeIsDataStable c5State.mode 1 = false ∧ c5State.recvCount = 8 ∧
        c5State.sendCount = 7)) ∧
    (clkEdge (armOnExchange 0x5A) 1 c5State).sendByte = 0x5A % 256 ∧
    (clkEdge baseImpl 1 c5State).sendByte = 0 :=
  ⟨Or.inl (by decide),
    (claim5_reset_before_callback_override 0x5A 1 c5State (Or.inl (by decide))).2.1,
    (claim5_reset_before_callback_override 0x5A 1 c5State (Or.inl (by decide))).2.2.2.1⟩

/-- Claim C7: from any newly selected protocol state with a scancode pending
(buffer full, IRQ asserted), a transaction whose first byte is `0x80`
(control code `0x00`) followed by any second byte answers the control with
`0x00`, clears the scancode buffer to `0x00`, clears the buffer-full flag
and deasserts the IRQ line, and the cleared state persists through the
second byte. -/
theorem claim7_control_reset_clears_pending (s : KbdSpi)
    (h1 : s.proto.kstate = .newlySelected)
    (h2 : s.proto.scancodeRegFull = true) (h3 : s.proto.irq = 1) (b2 : Nat) :
    (kbdExchange 0x80 s).sendByte = 0x00 ∧
    (kbdExchange 0x80 s).proto.lastScancode = 0x00 ∧
    (kbdExchange 0x80 s).proto.scancodeRegFull = false ∧
    (kbdExchange 0x80 s).proto.irq = 0 ∧
    (kbdExchange b2 (kbdExchange 0x80 s)).proto.lastScancode = 0x00 ∧
    (kbdExchange b2 (kbdExchange 0x80 s)).proto.scancodeRegFull = false ∧
    (kbdExchange b2 (kbdExchange 0x80 s)).proto.irq = 0 ∧
    (kbdExchange b2 (kbdExchange 0x80 s)).sendByte = 0x00 := by
  obtain ⟨mo, dd, sel, clk, mos, mis, rb, sb, rc, sc, mt, et, pr⟩ := s
  obtain ⟨ks, lsc, full, irq⟩ := pr
  simp only at h1 h2 h3
  subst h1; subst h2; subst h3
  have ha : (128 : ℕ) &&& 128 ≠ 0 := by decide
  have hb : (128 : ℕ) &&& 127 = 0 := by decide
  cases dd <;>
    simp [kbdExchange, kbdOnMosiByte, setMisoByte, setMiso, control, kbdDeviceReset,
      baseDeviceReset, writeIrq, ha, hb]

/-- Concrete instantiation of `claim7_control_reset_clears_pending` with
scancode `0x2A` pending and second byte `0x55`. -/
theorem claim7_control_reset_clears_pending_witness :
    (c7Pending.proto.kstate = KbdProtoState.newlySelected ∧
      c7Pending.proto.scancodeRegFull = true ∧ c7Pending.proto.irq = 1) ∧
    ((kbdExchange 0x80 c7Pending).sendByte = 0x00 ∧
      (kbdExchange 0x80 c7Pending).proto.lastScancode = 0x00 ∧
      (kbdExchange 0x80 c7Pending).proto.scancodeRegFull = false ∧
      (kbdExchange 0x80 c7Pending).proto.irq = 0 ∧
      (kbdExchange 0x55 (kbdExchange 0x80 c7Pending)).proto.lastScancode = 0x00 ∧
      (kbdExchange 0x55 (kbdExchange 0x80 c7Pending)).proto.scancodeRegFull = false ∧
      (kbdExchange 0x55 (kbdExchange 0x80 c7Pending)).proto.irq = 0 ∧
      (kbdExchange 0x55 (kbdExchange 0x80 c7Pending)).sendByte = 0x00) :=
  ⟨⟨by decide, by decide, by decide⟩,
    claim7_control_reset_clears_pending c7Pending (by decide) (by decide) (by decide) 0x55⟩

/-- Each `*_irq_w` handler ends in `irqs_updated_`, so right after any single
update the CPU IRQ line equals the OR of the three flags. -/
theorem applyIrqWrite_or (w : IrqWrite) (s : BuriIrqState) :
    (applyIrqWrite w s).cpuIrq =
      ((applyIrqWrite w s).mos6551 || (applyIrqWrite w s).tms9929a ||
        (applyIrqWrite w s).via6522) := by
  obtain ⟨a, b, c, d⟩ := s
  cases w <;>
    simp only [applyIrqWrite, mos6551IrqW, tms9929aIrqW, via6522IrqW, irqsUpdated,
      irqsVal] <;>
    rename_i v <;> cases hv : (v != 0) <;> cases b <;> cases c <;> cases a <;> rfl

/-- Unfolding one step of `runIrqWrites`. -/
theorem runIrqWrites_cons (w : IrqWrite) (ws : List IrqWrite) (s : BuriIrqState) :
    runIrqWrites (w :: ws) s = runIrqWrites ws (applyIrqWrite w s) := rfl

/-- The OR invariant is preserved by any further sequence of updates. -/
theorem runIrqWrites_or_aux (ws : List IrqWrite) (s : BuriIrqState)
    (h : s.cpuIrq = (s.mos6551 || s.tms9929a || s.via6522)) :
    (runIrqWrites ws s).cpuIrq =
      ((runIrqWrites ws s).mos6551 || (runIrqWrites ws s).tms9929a ||
        (runIrqWrites ws s).via6522) := by
  induction ws generalizing s with
  | nil => exact h
  | cons w rest ih => rw [runIrqWrites_cons]; exact ih _ (applyIrqWrite_or w s)

/-- Claim C8: after any non-empty sequence of per-source interrupt flag
updates, from any starting state, the aggregate CPU IRQ line equals the
logical OR of the three source flags; in particular asserting any source
raises it, deasserting all sources lowers it, and asserting two sources then
deasserting one leaves it raised. -/
theorem claim8_aggregate_is_or (ws : List IrqWrite) (s0 : BuriIrqState)
    (h : ws ≠ []) :
    (runIrqWrites ws s0).cpuIrq =
      ((runIrqWrites ws s0).mos6551 || (runIrqWrites ws s0).tms9929a ||
        (runIrqWrites ws s0).via6522) := by
  cases ws with
  | nil => exact absurd rfl h
  | cons w rest => rw [runIrqWrites_cons]; exact runIrqWrites_or_aux rest _ (applyIrqWrite_or w s0)

/-- Concrete instantiation of `claim8_aggregate_is_or`: assert two sources,
deassert one — the aggregate stays equal to the OR of the flags, which is
still true. -/
theorem claim8_aggregate_is_or_witness :
    c8Writes ≠ [] ∧
    (runIrqWrites c8Writes buriIrqInit).cpuIrq =
      ((runIrqWrites c8Writes buriIrqInit).mos6551 ||
        (runIrqWrites c8Writes buriIrqInit).tms9929a ||
        (runIrqWrites c8Writes buriIrqInit).via6522) ∧
    (runIrqWrites c8Writes buriIrqInit).cpuIrq = true :=
  ⟨by decide, claim8_aggregate_is_or c8Writes buriIrqInit (by decide), by decide⟩

/-- `set_miso_byte` never touches the stored clock level. -/
theorem setMisoByte_clk {σ : Type} (b : Nat) (s : SpiState σ) :
    (setMisoByte b s).clk = s.clk := by
  obtain ⟨mo, dd, sel, clk, mos, mis, rb, sb, rc, sc, mt, et, pr⟩ := s
  cases dd <;> rfl

/-- `control` never touches the stored clock level. -/
theorem control_clk (c : Nat) (s : KbdSpi) : ((control c s).2).clk = s.clk := by
  unfold control
  split_ifs <;> rfl

/-- The keyboard byte-exchanged handler never touches the stored clock
level. -/
theorem kbdOnMosiByte_clk (r : Nat) (s : KbdSpi) : (kbdOnMosiByte r s).clk = s.clk := by
  obtain ⟨mo, dd, sel, clk, mos, mis, rb, sb, rc, sc, mt, et, pr⟩ := s
  obtain ⟨ks, lsc, full, irq⟩ := pr
  cases ks
  all_goals simp only [kbdOnMosiByte, writeIrq]
  all_goals try split_ifs
  all_goals simp [setMisoByte_clk, control_clk]

/-- `clk_edge_` never touches the stored clock level. -/
theorem clkEdge_clk (i : Nat) (s : KbdSpi) : (clkEdge kbdImpl i s).clk = s.clk := by
  obtain ⟨mo, dd, sel, clk, mos, mis, rb, sb, rc, sc, mt, et, pr⟩ := s
  cases dd
  all_goals simp only [clkEdge, kbdImpl, setMiso]
  all_goals split_ifs
  all_goals simp [kbdOnMosiByte_clk, setMisoByte_clk]

/-- After any `write_clock(v)` call the stored clock level is `v`. -/
theorem writeClock_clk (v : Nat) (s : KbdSpi) : (writeClock kbdImpl v s).clk = v := by
  by_cases h : s.clk = v
  · simp only [writeClock, if_pos h]; exact h
  · simp only [writeClock, if_neg h]
    split_ifs <;> simp [clkEdge_clk]

/-- `write_clock(v)` is a no-op on a state whose stored clock level is
already `v` (the guard on `slave.cpp` line 53). -/
theorem writeClock_noop (v : Nat) (t : KbdSpi) (h : t.clk = v) :
    writeClock kbdImpl v t = t := by
  unfold writeClock
  rw [if_pos h]

/-- Claim C9: calling `write_clock` twice in succession with the same level
leaves the keyboard device in exactly the state produced by the single call,
for every engine state and every level — the second call performs no
additional sampling or shifting. -/
theorem claim9_write_clock_idempotent (s : KbdSpi) (v : Nat) :
    writeClock kbdImpl v (writeClock kbdImpl v s) = writeClock kbdImpl v s :=
  writeClock_noop v _ (writeClock_clk v s)

/-- Claim C10: from any newly selected protocol state, a first transaction
byte of `0x80` (control code `0x00`) leaves the protocol state `NotSelected`
rather than `ReadyToRespond` and resets the SPI exchange state — both bit
counters and both shift bytes — to zero, with response byte `0x00`; any
following byte of the transaction is handled by the fallback branch, still
answering `0x00` and leaving the state `NotSelected`. -/
theorem claim10_control_zero_resets_protocol_and_engine (s : KbdSpi)
    (h : s.proto.kstate = .newlySelected) (b2 : Nat) :
    (kbdExchange 0x80 s).proto.kstate = .notSelected ∧
    (kbdExchange 0x80 s).recvCount = 0 ∧
    (kbdExchange 0x80 s).sendCount = 0 ∧
    (kbdExchange 0x80 s).recvByte = 0 ∧
    (kbdExchange 0x80 s).sendByte = 0 ∧
    (kbdExchange b2 (kbdExchange 0x80 s)).sendByte = 0x00 ∧
    (kbdExchange b2 (kbdExchange 0x80 s)).proto.kstate = .notSelected := by
  obtain ⟨mo, dd, sel, clk, mos, mis, rb, sb, rc, sc, mt, et, pr⟩ := s
  obtain ⟨ks, lsc, full, irq⟩ := pr
  simp only at h
  subst h
  have ha : (128 : ℕ) &&& 128 ≠ 0 := by decide
  have hb : (128 : ℕ) &&& 127 = 0 := by decide
  cases dd <;>
    simp [kbdExchange, kbdOnMosiByte, setMisoByte, setMiso, control, kbdDeviceReset,
      baseDeviceReset, writeIrq, ha, hb]

/-- Concrete instantiation of
`claim10_control_zero_resets_protocol_and_engine` with second byte `0x37`. -/
theorem claim10_control_zero_resets_protocol_and_engine_witness :
    c10Newly.proto.kstate = KbdProtoState.newlySelected ∧
    ((kbdExchange 0x80 c10Newly).proto.kstate = KbdProtoState.notSelected ∧
      (kbdExchange 0x80 c10Newly).recvCount = 0 ∧
      (kbdExchange 0x80 c10Newly).sendCount = 0 ∧
      (kbdExchange 0x80 c10Newly).recvByte = 0 ∧
      (kbdExchange 0x80 c10Newly).sendByte = 0 ∧
      (kbdExchange 0x37 (kbdExchange 0x80 c10Newly)).sendByte = 0x00 ∧
      (kbdExchange 0x37 (kbdExchange 0x80 c10Newly)).proto.kstate = KbdProtoState.notSelected) :=
  ⟨by decide, claim10_control_zero_resets_protocol_and_engine c10Newly (by decide) 0x37⟩

end BuriSpi
